import Mathlib

/-!
Verification of the flake8-elegant-objects static-analysis engine.

This file shallowly embeds the Python source of the repository:
a Python-AST fragment (the node kinds the engine dispatches on), the
rule catalog of `ElegantObjectsViolation` (flake8_elegant_objects/__init__.py),
the per-rule variants from core.py / advanced.py, and the stateful
`AttributeMutationVisitor` (no_mutable_objects.py).  Stateful visitors are
embedded as explicit state-passing functions; Python sets of strings are
embedded as string lists (membership-equivalent); string primitives are
embedded for the ASCII names the rules operate on.
-/

namespace EO

/-- Source position of an AST node: `lineno` and `col_offset`. -/
structure Pos where
  line : Nat
  col : Nat
deriving DecidableEq, Repr

/-- A reported diagnostic: the `(line, column, message)` triple the engine
appends to its error list. -/
structure Diag where
  line : Nat
  col : Nat
  msg : String
deriving DecidableEq, Repr

/-- Python constant values distinguished by the rules (`None`, `True`, numbers,
strings). -/
inductive Const where
  | noneC
  | boolC (b : Bool)
  | intC (n : Int)
  | strC (s : String)
deriving DecidableEq, Repr

mutual
/-- Python expression nodes the engine dispatches on.  A `constant` node's
position is optional, mirroring the `hasattr(node, "lineno")` guards in the
source; every other embedded node kind always carries its position (as all
parser-produced nodes do). -/
inductive Expr where
  | name (id : String) (pos : Pos)
  | attr (value : Expr) (attrName : String) (pos : Pos)
  | call (func : Expr) (args : List Expr) (keywords : List Kw) (pos : Pos)
  | constant (value : Const) (pos : Option Pos)
  | listLit (elts : List Expr) (pos : Pos)
  | dictLit (keys : List Expr) (vals : List Expr) (pos : Pos)
  | setLit (elts : List Expr) (pos : Pos)
  | tupleLit (elts : List Expr) (pos : Pos)
  | starred (value : Expr) (pos : Pos)

/-- A keyword argument of a call: `ast.keyword(arg, value)`. -/
inductive Kw where
  | mk (argName : Option String) (value : Expr)

/-- Python statement nodes the engine dispatches on.  `functionDef` keeps the
names of its positional parameters (`node.args.args[i].arg`). -/
inductive Stmt where
  | classDef (name : String) (bases : List Expr) (body : List Stmt)
      (decoratorList : List Expr) (pos : Pos)
  | functionDef (name : String) (argNames : List String) (body : List Stmt)
      (decoratorList : List Expr) (pos : Pos)
  | assign (targets : List Expr) (value : Expr) (pos : Pos)
  | annAssign (target : Expr) (ann : Expr) (value : Option Expr) (pos : Pos)
  | augAssign (target : Expr) (value : Expr) (pos : Pos)
  | exprStmt (value : Expr) (pos : Pos)
  | passStmt (pos : Pos)
  | ret (value : Option Expr) (pos : Pos)
end

/-- The `lineno`/`col_offset` of a statement node. -/
def Stmt.posOf : Stmt → Pos
  | .classDef _ _ _ _ p => p
  | .functionDef _ _ _ _ p => p
  | .assign _ _ p => p
  | .annAssign _ _ _ p => p
  | .augAssign _ _ p => p
  | .exprStmt _ p => p
  | .passStmt p => p
  | .ret _ p => p

/-! String primitives.  Python `str` methods are embedded on the character
list underlying a Lean `String`; `Char.toLower`/`Char.isUpper` give the ASCII
behaviour, which coincides with Python on the identifier names the rules
read. -/

/-- Python `str.lower()`. -/
def pyLower (s : String) : String := ⟨s.data.map Char.toLower⟩

/-- Python `str.startswith(pre)`. -/
def pyStartsWith (s pre : String) : Bool := pre.data.isPrefixOf s.data

/-- Python `str.endswith(suf)`. -/
def pyEndsWith (s suf : String) : Bool := suf.data.isSuffixOf s.data

/-- Python `str.isupper()`: at least one cased character and no lower-case
cased character. -/
def pyIsUpper (s : String) : Bool :=
  s.data.any Char.isAlpha && s.data.all (fun c => !c.isAlpha || c.isUpper)

/-- Python `len(s)` (character count). -/
def pyLen (s : String) : Nat := s.data.length

/-- Is `c` an ASCII lower-case letter (the character class of the regex
`[a-z]`)? -/
def isLowerAlpha (c : Char) : Bool := 'a' ≤ c && c ≤ 'z'

/-- `re.findall(r"[a-z]+", s)`: the maximal runs of lower-case letters, in
order.  `acc` holds the (reversed) run currently being read. -/
def lowerWordsAux : List Char → List Char → List String
  | [], acc => if acc.isEmpty then [] else [⟨acc.reverse⟩]
  | c :: cs, acc =>
    if isLowerAlpha c then lowerWordsAux cs (c :: acc)
    else if acc.isEmpty then lowerWordsAux cs []
    else ⟨acc.reverse⟩ :: lowerWordsAux cs []

/-- `re.findall(r"[a-z]+", s)` as used by `_contains_procedural_pattern` and
`_starts_with_procedural_verb`. -/
def lowerWords (s : String) : List String := lowerWordsAux s.data []

/-! The configured name tables of `ElegantObjectsViolation`
(flake8_elegant_objects/__init__.py).  Python `set` literals become lists;
the rules only test membership, which is order-insensitive. -/

/-- `ElegantObjectsViolation.ER_SUFFIXES`. -/
def ER_SUFFIXES : List String :=
  ["accumulator", "adapter", "aggregator", "analyzer", "broker", "builder",
   "calculator", "checker", "collector", "compiler", "compressor", "consumer",
   "controller", "converter", "coordinator", "creator", "decoder",
   "decompressor", "deserializer", "dispatcher", "displayer", "encoder",
   "evaluator", "executor", "exporter", "factory", "fetcher", "filter",
   "finder", "formatter", "generator", "handler", "helper", "importer",
   "interpreter", "joiner", "listener", "loader", "manager", "mediator",
   "merger", "monitor", "observer", "orchestrator", "organizer", "parser",
   "printer", "processor", "producer", "provider", "reader", "renderer",
   "reporter", "router", "runner", "saver", "scanner", "scheduler",
   "serializer", "sorter", "splitter", "supplier", "synchronizer", "tracker",
   "transformer", "validator", "worker", "wrapper", "writer"]

/-- `ElegantObjectsViolation.PROCEDURAL_VERBS`. -/
def PROCEDURAL_VERBS : List String :=
  ["accumulate", "add", "aggregate", "analyze", "append", "build", "calculate",
   "change", "check", "clean", "clear", "close", "collect", "compile",
   "compress", "control", "convert", "create", "decode", "decompress",
   "delete", "deserialize", "dispatch", "display", "do", "encode", "evaluate",
   "execute", "export", "fetch", "filter", "find", "format", "generate",
   "get", "handle", "hide", "import", "insert", "interpret", "join", "load",
   "manage", "merge", "modify", "open", "organize", "parse", "pause",
   "prepend", "print", "process", "put", "read", "receive", "refresh",
   "remove", "render", "reset", "resume", "retrieve", "route", "run", "save",
   "schedule", "search", "send", "serialize", "set", "show", "sort", "split",
   "start", "stop", "store", "transform", "transmit", "update", "validate",
   "write"]

/-- `ElegantObjectsViolation.ALLOWED_EXCEPTIONS`. -/
def ALLOWED_EXCEPTIONS : List String :=
  ["buffer", "character", "cluster", "container", "counter", "error", "footer",
   "header", "identifier", "number", "order", "owner", "parameter", "pointer",
   "register", "server", "timer", "user"]

/-! Diagnostic message formats (the `EO001`..`EO014` class attributes, after
`.format`). -/

/-- `EO001.format(name=name)`. -/
def fmtEO001 (name : String) : String :=
  "EO001 Class name \x27" ++ name ++
    "\x27 violates -er principle (describes what it does, not what it is)"

/-- `EO002.format(name=name)`. -/
def fmtEO002 (name : String) : String :=
  "EO002 Method name \x27" ++ name ++
    "\x27 violates -er principle (should be noun, not verb)"

/-- `EO003.format(name=name)`. -/
def fmtEO003 (name : String) : String :=
  "EO003 Variable name \x27" ++ name ++
    "\x27 violates -er principle (should be noun, not verb)"

/-- `EO004.format(name=name)`. -/
def fmtEO004 (name : String) : String :=
  "EO004 Function name \x27" ++ name ++
    "\x27 violates -er principle (should be noun, not verb)"

/-- The `EO005` message. -/
def msgEO005 : String := "EO005 Null (None) usage violates EO principle (avoid None)"

/-- The `EO006` message. -/
def msgEO006 : String :=
  "EO006 Code in constructor violates EO principle (constructors should only assign parameters)"

/-- `EO007.format(name=name)`. -/
def fmtEO007 (name : String) : String :=
  "EO007 Getter/setter method \x27" ++ name ++
    "\x27 violates EO principle (avoid getters/setters)"

/-- `EO008.format(name=name)`. -/
def fmtEO008 (name : String) : String :=
  "EO008 Mutable object violation: \x27" ++ name ++ "\x27 should be immutable"

/-- `EO009.format(name=name)`. -/
def fmtEO009 (name : String) : String :=
  "EO009 Static method \x27" ++ name ++
    "\x27 violates EO principle (no static methods allowed)"

/-- The `EO010` message. -/
def msgEO010 : String :=
  "EO010 isinstance/type casting violates EO principle (avoid type discrimination)"

/-- `EO011.format(name=name)`. -/
def fmtEO011 (name : String) : String :=
  "EO011 Public method \x27" ++ name ++
    "\x27 without contract (Protocol/ABC) violates EO principle"

/-- `EO012.format(name=name)`. -/
def fmtEO012 (name : String) : String :=
  "EO012 Test method \x27" ++ name ++
    "\x27 contains non-assertThat statements (only assertThat allowed)"

/-- `EO013.format(name=name)`. -/
def fmtEO013 (name : String) : String :=
  "EO013 ORM/ActiveRecord pattern \x27" ++ name ++ "\x27 violates EO principle"

/-- `EO014.format(name=name)`. -/
def fmtEO014 (name : String) : String :=
  "EO014 Implementation inheritance violates EO principle (class \x27" ++ name ++
    "\x27 inherits from non-abstract class)"

/-- `Principles._violation` (base.py, lines 73-77): create a violation only if
the node carries position information, otherwise return an empty list.  The
free `violation` helper imported by core.py / no_mutable_objects.py is not in
src/; modelled from the spec ("a rule never raises ... a constant node lacking
position information yields no diagnostic") as the same guard. -/
def violationAt (pos : Option Pos) (msg : String) : List Diag :=
  match pos with
  | some p => [⟨p.line, p.col, msg⟩]
  | none => []

/-- `_contains_procedural_pattern` (the argument is already lower-cased by the
caller). -/
def containsProceduralPattern (name : String) : Bool :=
  (lowerWords name).any (fun w => PROCEDURAL_VERBS.contains w)

/-- `_starts_with_procedural_verb`. -/
def startsWithProceduralVerb (name : String) : Bool :=
  match lowerWords name with
  | [] => false
  | firstWord :: _ => PROCEDURAL_VERBS.contains firstWord

/-- `_is_method`: the first positional parameter is literally named `self` or
`cls`; no class context is consulted. -/
def isMethod (argNames : List String) : Bool :=
  match argNames with
  | [] => false
  | a :: _ => a == "self" || a == "cls"

/-- `_check_class_name`: diagnostics appended for a class-declaration name.
The Python loop over `ER_SUFFIXES` appends once and returns on the first
matching suffix, so it appends one diagnostic exactly when some suffix
matches. -/
def classNameDiags (name : String) (pos : Pos) : List Diag :=
  let low := pyLower name
  if ALLOWED_EXCEPTIONS.contains low then []
  else if ER_SUFFIXES.any (fun suf => pyEndsWith low suf) then
    [⟨pos.line, pos.col, fmtEO001 name⟩]
  else if containsProceduralPattern low then
    [⟨pos.line, pos.col, fmtEO001 name⟩]
  else []

/-- `_check_function_name`. -/
def functionNameDiags (name : String) (argNames : List String) (pos : Pos) :
    List Diag :=
  if pyStartsWith name "_" then []
  else if name == "property" || name == "getter" || name == "setter" then []
  else
    let low := pyLower name
    if startsWithProceduralVerb low then
      if isMethod argNames then [⟨pos.line, pos.col, fmtEO002 name⟩]
      else [⟨pos.line, pos.col, fmtEO004 name⟩]
    else []

/-- `_check_variable_name`. -/
def variableNameDiags (id : String) (pos : Pos) : List Diag :=
  if pyStartsWith id "_" || pyIsUpper id then []
  else
    let low := pyLower id
    if ALLOWED_EXCEPTIONS.contains low then []
    else if ER_SUFFIXES.any (fun suf => pyEndsWith low suf) then
      [⟨pos.line, pos.col, fmtEO003 id⟩]
    else if startsWithProceduralVerb low then
      [⟨pos.line, pos.col, fmtEO003 id⟩]
    else []

/-- `_check_variable_assignment`: check each `ast.Name` target in order. -/
def variableAssignDiags : List Expr → List Diag
  | [] => []
  | .name id p :: ts => variableNameDiags id p ++ variableAssignDiags ts
  | _ :: ts => variableAssignDiags ts

/-- `_check_annotated_assignment`: check the target if it is an `ast.Name`. -/
def annAssignDiags : Expr → List Diag
  | .name id p => variableNameDiags id p
  | _ => []

/-- `_check_none_usage`, reached from `visit` only for `ast.Constant` nodes:
flag a `None` constant, but only when the node carries position
information. -/
def noneUsageDiags (v : Const) (pos : Option Pos) : List Diag :=
  match v, pos with
  | .noneC, some p => [⟨p.line, p.col, msgEO005⟩]
  | _, _ => []

/-- The per-statement decision of `_check_constructor_code`: which (zero or
one) `EO006` diagnostics a single constructor-body statement produces.  A
statement is permitted exactly when it is `pass` or a single-target assignment
`self.attr = bare_name`; the same decision appears verbatim in
flake8_elegant_objects/__init__.py (lines 397-415) and core.py (lines 37-53),
which differ only in whether they continue past the first violation. -/
def initStmtDiags : Stmt → List Diag
  | .assign targets value pos =>
    match targets with
    | [.attr tval _ _] =>
      match tval with
      | .name vid _ =>
        if vid == "self" then
          match value with
          | .name _ _ => []
          | _ => [⟨pos.line, pos.col, msgEO006⟩]
        else [⟨pos.line, pos.col, msgEO006⟩]
      | _ => [⟨pos.line, pos.col, msgEO006⟩]
    | _ => [⟨pos.line, pos.col, msgEO006⟩]
  | .passStmt _ => []
  | st => [⟨st.posOf.line, st.posOf.col, msgEO006⟩]

/-- The body loop of `ElegantObjectsViolation._check_constructor_code`
(__init__.py): every violating statement appends a diagnostic (the loop has no
early return). -/
def constructorBodyDiags : List Stmt → List Diag
  | [] => []
  | st :: rest => initStmtDiags st ++ constructorBodyDiags rest

/-- `ElegantObjectsViolation._check_constructor_code` (__init__.py,
lines 389-415). -/
def constructorCodeDiags (name : String) (argNames : List String)
    (body : List Stmt) : List Diag :=
  if name != "__init__" || !isMethod argNames then []
  else constructorBodyDiags body

/-- The body loop of `NoConstructorCode._check_constructor_code` (core.py):
`return violation(stmt, ...)` stops at the first violating statement. -/
def coreConstructorBodyDiags : List Stmt → List Diag
  | [] => []
  | st :: rest =>
    match initStmtDiags st with
    | [] => coreConstructorBodyDiags rest
    | ds => ds

/-- `NoConstructorCode._check_constructor_code` (core.py, lines 29-55). -/
def coreConstructorCodeDiags (name : String) (argNames : List String)
    (body : List Stmt) : List Diag :=
  if name != "__init__" || !isMethod argNames then []
  else coreConstructorBodyDiags body

/-- The character at index 3 is upper-case (`original_name[3].isupper()`,
guarded by `len(original_name) > 3`). -/
def charAt3IsUpper (s : String) : Bool :=
  match s.data.drop 3 with
  | c :: _ => c.isUpper
  | [] => false

/-- `_check_getters_setters`: the getter and setter patterns are tested
independently, each appending its own diagnostic. -/
def getterSetterDiags (name : String) (argNames : List String) (pos : Pos) :
    List Diag :=
  if !isMethod argNames || pyStartsWith name "_" then []
  else
    let low := pyLower name
    let getterHit :=
      pyStartsWith low "get_" ||
        (pyStartsWith low "get" && pyLen name > 3 && charAt3IsUpper name) ||
        low == "get"
    let setterHit :=
      pyStartsWith low "set_" ||
        (pyStartsWith low "set" && pyLen name > 3 && charAt3IsUpper name) ||
        low == "set"
    (if getterHit then [⟨pos.line, pos.col, fmtEO007 name⟩] else []) ++
      (if setterHit then [⟨pos.line, pos.col, fmtEO007 name⟩] else [])

/-- `_is_mutable_type`. -/
def isMutableType : Expr → Bool
  | .listLit _ _ => true
  | .dictLit _ _ _ => true
  | .setLit _ _ => true
  | .call (.name id _) _ _ _ => ["list", "dict", "set", "bytearray"].contains id
  | _ => false

/-- Inner loop of `_check_mutable_class` over the targets of one class-body
assignment: one `EO008` per `ast.Name` target whose value is mutable. -/
def mutableTargetsDiags (value : Expr) (stPos : Pos) : List Expr → List Diag
  | [] => []
  | .name id _ :: ts =>
    (if isMutableType value then [⟨stPos.line, stPos.col, fmtEO008 id⟩] else []) ++
      mutableTargetsDiags value stPos ts
  | _ :: ts => mutableTargetsDiags value stPos ts

/-- Outer loop of `_check_mutable_class` over the class body. -/
def mutableBodyDiags : List Stmt → List Diag
  | [] => []
  | .assign targets value pos :: rest =>
    mutableTargetsDiags value pos targets ++ mutableBodyDiags rest
  | _ :: rest => mutableBodyDiags rest

/-- Does a decorator mark the class as a `dataclass`
(`@dataclass` or `@dataclass(...)`)? -/
def isDataclassDecorator : Expr → Bool
  | .name id _ => id == "dataclass"
  | .call (.name id _) _ _ _ => id == "dataclass"
  | _ => false

/-- Does a decorator set `frozen=True` on a `@dataclass(...)` call?  (Only a
`Call` decorator can set `has_frozen` in the source loop.) -/
def isFrozenDataclassDecorator : Expr → Bool
  | .call (.name id _) _ kws _ =>
    id == "dataclass" &&
      kws.any (fun kw =>
        match kw with
        | .mk (some "frozen") (.constant (.boolC true) _) => true
        | _ => false)
  | _ => false

/-- `_check_mutable_class` (__init__.py, lines 455-497). -/
def mutableClassDiags (name : String) (decoratorList : List Expr)
    (body : List Stmt) (pos : Pos) : List Diag :=
  let hasDataclass := decoratorList.any isDataclassDecorator
  let hasFrozen := decoratorList.any isFrozenDataclassDecorator
  (if hasDataclass && !hasFrozen then [⟨pos.line, pos.col, fmtEO008 name⟩] else []) ++
    mutableBodyDiags body

/-- `_check_static_methods` (__init__.py): the decorator loop appends one
`EO009` per `staticmethod`/`classmethod` decorator, with no early return. -/
def staticMethodDiags (name : String) (pos : Pos) : List Expr → List Diag
  | [] => []
  | .name id _ :: ds =>
    (if id == "staticmethod" || id == "classmethod" then
      [⟨pos.line, pos.col, fmtEO009 name⟩]
     else []) ++ staticMethodDiags name pos ds
  | _ :: ds => staticMethodDiags name pos ds

/-- The `forbidden_funcs` set of `_check_isinstance_usage`. -/
def FORBIDDEN_FUNCS : List String :=
  ["isinstance", "type", "hasattr", "getattr", "setattr", "delattr", "callable"]

/-- `_check_isinstance_usage`, applied to a call node with callee `func` at
position `pos`. -/
def isinstanceDiags (func : Expr) (pos : Pos) : List Diag :=
  match func with
  | .name id _ =>
    if FORBIDDEN_FUNCS.contains id then [⟨pos.line, pos.col, msgEO010⟩] else []
  | _ => []

/-- The enclosing-class context the traversal maintains: the source stores the
whole `ast.ClassDef` node; the checks read its name and base list. -/
structure ClassCtx where
  name : String
  bases : List Expr

/-- One base expression grants a contract (`Protocol`/`ABC`), per
`_check_public_methods_contracts`. -/
def baseHasContract : Expr → Bool
  | .name id _ => id == "Protocol" || id == "ABC"
  | .attr v a _ =>
    (a == "Protocol" || a == "ABC") ||
      (match v with
       | .name vid _ => (vid == "abc" || vid == "typing") && (a == "Protocol" || a == "ABC")
       | _ => false)
  | _ => false

/-- One decorator marks the method abstract, per
`_check_public_methods_contracts`. -/
def isAbstractDecorator : Expr → Bool
  | .name id _ => id == "abstractmethod" || id == "abstractproperty"
  | .attr _ a _ => a == "abstractmethod" || a == "abstractproperty"
  | _ => false

/-- `_check_public_methods_contracts` (__init__.py, lines 539-583). -/
def publicContractDiags (ctx : Option ClassCtx) (name : String)
    (argNames : List String) (decoratorList : List Expr) (pos : Pos) :
    List Diag :=
  if pyStartsWith name "_" ||
      decoratorList.any (fun d =>
        match d with
        | .name id _ => id == "property"
        | _ => false) then []
  else
    match ctx with
    | none => []
    | some c =>
      if !isMethod argNames then []
      else if c.bases.any baseHasContract ||
          decoratorList.any isAbstractDecorator then []
      else [⟨pos.line, pos.col, fmtEO011 name⟩]

/-- Is the callee of an expression statement an `assertThat` call (bare name
or attribute form)? -/
def isAssertThatCallee : Expr → Bool
  | .name id _ => id == "assertThat"
  | .attr _ a _ => a == "assertThat"
  | _ => false

/-- The body loop of `_check_test_methods`: one `EO012` per offending
statement. -/
def testBodyDiags (name : String) : List Stmt → List Diag
  | [] => []
  | .exprStmt (.call f _ _ _) spos :: rest =>
    (if isAssertThatCallee f then [] else [⟨spos.line, spos.col, fmtEO012 name⟩]) ++
      testBodyDiags name rest
  | .passStmt _ :: rest => testBodyDiags name rest
  | st :: rest => [⟨st.posOf.line, st.posOf.col, fmtEO012 name⟩] ++ testBodyDiags name rest

/-- `_check_test_methods` (__init__.py, lines 585-607). -/
def testMethodDiags (name : String) (body : List Stmt) : List Diag :=
  if !pyStartsWith name "test_" then [] else testBodyDiags name body

/-- The `orm_methods` set of `_check_orm_patterns`. -/
def ORM_METHODS : List String :=
  ["save", "delete", "destroy", "update", "create", "reload", "find",
   "find_by", "where", "filter", "filter_by", "get", "get_or_create",
   "select", "insert", "update_all", "delete_all", "execute", "query",
   "order_by", "group_by", "having", "limit", "offset", "join", "includes",
   "eager_load", "preload", "create_table", "drop_table", "add_column",
   "remove_column"]

/-- `_check_orm_patterns` (__init__.py, lines 609-681), applied to a call with
callee `func` at the call node's position `pos`. -/
def ormDiags (func : Expr) (pos : Pos) : List Diag :=
  match func with
  | .attr value attrName _ =>
    if !ORM_METHODS.contains attrName then []
    else
      match value with
      | .name vid _ =>
        if ["list", "dict", "set", "tuple", "str", "int", "float", "bool"].contains vid
        then [] else [⟨pos.line, pos.col, fmtEO013 attrName⟩]
      | .constant _ _ => []
      | .listLit _ _ => []
      | .dictLit _ _ _ => []
      | .tupleLit _ _ => []
      | .setLit _ _ => []
      | .call (.name fid _) _ _ _ =>
        if ["open", "int", "str", "list", "dict", "set", "tuple", "bool", "float"].contains fid
        then [] else [⟨pos.line, pos.col, fmtEO013 attrName⟩]
      | _ => [⟨pos.line, pos.col, fmtEO013 attrName⟩]
  | _ => []

/-- The `allowed_bases` set of `_check_implementation_inheritance`. -/
def ALLOWED_BASES : List String :=
  ["ABC", "Protocol", "Exception", "BaseException", "ValueError", "TypeError",
   "RuntimeError", "AttributeError", "KeyError", "IndexError", "ImportError",
   "OSError", "Enum", "IntEnum", "Flag", "IntFlag", "object"]

/-- Is one base expression an allowed (abstract) base, per
`_check_implementation_inheritance`?  Shared verbatim by the __init__.py and
advanced.py versions. -/
def isAbstractBase : Expr → Bool
  | .name id _ => ALLOWED_BASES.contains id
  | .attr v a _ =>
    if a == "Protocol" || a == "ABC" then true
    else
      match v with
      | .name vid _ => ["abc", "typing", "collections", "enum"].contains vid
      | _ => false
  | _ => false

/-- `ElegantObjectsViolation._check_implementation_inheritance` (__init__.py,
lines 683-731): the base loop appends one `EO014` per non-abstract base, with
no early return. -/
def implInheritanceDiags (name : String) (pos : Pos) : List Expr → List Diag
  | [] => []
  | b :: bs =>
    (if isAbstractBase b then [] else [⟨pos.line, pos.col, fmtEO014 name⟩]) ++
      implInheritanceDiags name pos bs

/-- `AdvancedPrinciples._check_implementation_inheritance` (advanced.py,
lines 197-245): `return self._violation(...)` stops at the first non-abstract
base, so at most one diagnostic is produced per class declaration. -/
def advImplInheritanceDiags (name : String) (pos : Pos) : List Expr → List Diag
  | [] => []
  | b :: bs =>
    if isAbstractBase b then advImplInheritanceDiags name pos bs
    else [⟨pos.line, pos.col, fmtEO014 name⟩]

/-! The traversal engine of `ElegantObjectsViolation` (__init__.py).  The
instance attributes mutated during `visit` — the accumulated `self.errors`
list and the `self._current_class` context — become an explicit state record
threaded through the recursion.  `ast.iter_child_nodes` order follows the
`_fields` order of each node kind. -/

/-- The mutable state of one `ElegantObjectsViolation` traversal. -/
structure VState where
  errors : List Diag
  currentClass : Option ClassCtx

/-- `self.errors.append(...)` for a batch of diagnostics, in order. -/
def addErrors (s : VState) (ds : List Diag) : VState :=
  { s with errors := s.errors ++ ds }

mutual
/-- `ElegantObjectsViolation.visit` on one statement node (__init__.py,
lines 235-273). -/
def visitStmt (s : VState) : Stmt → VState
  | .classDef name bases body decs pos =>
    let previousClass := s.currentClass
    let s1 := { s with currentClass := some ⟨name, bases⟩ }
    let s2 := addErrors s1 (classNameDiags name pos)
    let s3 := addErrors s2 (mutableClassDiags name decs body pos)
    let s4 := addErrors s3 (implInheritanceDiags name pos bases)
    let s5 := visitExprList s4 bases
    let s6 := visitStmtList s5 body
    let s7 := visitExprList s6 decs
    { s7 with currentClass := previousClass }
  | .functionDef name args body decs pos =>
    let s1 := addErrors s (functionNameDiags name args pos)
    let s2 := addErrors s1 (constructorCodeDiags name args body)
    let s3 := addErrors s2 (getterSetterDiags name args pos)
    let s4 := addErrors s3 (staticMethodDiags name pos decs)
    let s5 := addErrors s4 (publicContractDiags s.currentClass name args decs pos)
    let s6 := addErrors s5 (testMethodDiags name body)
    let s7 := visitStmtList s6 body
    visitExprList s7 decs
  | .assign targets value _ =>
    let s1 := addErrors s (variableAssignDiags targets)
    let s2 := visitExprList s1 targets
    visitExpr s2 value
  | .annAssign target ann value _ =>
    let s1 := addErrors s (annAssignDiags target)
    let s2 := visitExpr s1 target
    let s3 := visitExpr s2 ann
    match value with
    | some v => visitExpr s3 v
    | none => s3
  | .augAssign target value _ =>
    let s1 := visitExpr s target
    visitExpr s1 value
  | .exprStmt value _ => visitExpr s value
  | .passStmt _ => s
  | .ret value _ =>
    match value with
    | some v => visitExpr s v
    | none => s

/-- `ElegantObjectsViolation.visit` on one expression node. -/
def visitExpr (s : VState) : Expr → VState
  | .name _ _ => s
  | .attr v _ _ => visitExpr s v
  | .call f args kws pos =>
    let s1 := addErrors s (isinstanceDiags f pos)
    let s2 := addErrors s1 (ormDiags f pos)
    let s3 := visitExpr s2 f
    let s4 := visitExprList s3 args
    visitKwList s4 kws
  | .constant v pos => addErrors s (noneUsageDiags v pos)
  | .listLit elts _ => visitExprList s elts
  | .dictLit keys vals _ =>
    let s1 := visitExprList s keys
    visitExprList s1 vals
  | .setLit elts _ => visitExprList s elts
  | .tupleLit elts _ => visitExprList s elts
  | .starred v _ => visitExpr s v

/-- Visit a list of statements in order. -/
def visitStmtList (s : VState) : List Stmt → VState
  | [] => s
  | st :: rest => visitStmtList (visitStmt s st) rest

/-- Visit a list of expressions in order. -/
def visitExprList (s : VState) : List Expr → VState
  | [] => s
  | e :: rest => visitExprList (visitExpr s e) rest

/-- Visit the value of each keyword argument in order. -/
def visitKwList (s : VState) : List Kw → VState
  | [] => s
  | .mk _ v :: rest => visitKwList (visitExpr s v) rest
end

mutual
/-- The diagnostics `visitStmt` appends for one statement, as a pure function
of the node and the enclosing-class context (proved equivalent to the
state-passing engine below). -/
def stmtDiags (c : Option ClassCtx) : Stmt → List Diag
  | .classDef name bases body decs pos =>
    classNameDiags name pos ++
      mutableClassDiags name decs body pos ++
      implInheritanceDiags name pos bases ++
      exprListDiags (some ⟨name, bases⟩) bases ++
      stmtListDiags (some ⟨name, bases⟩) body ++
      exprListDiags (some ⟨name, bases⟩) decs
  | .functionDef name args body decs pos =>
    functionNameDiags name args pos ++
      constructorCodeDiags name args body ++
      getterSetterDiags name args pos ++
      staticMethodDiags name pos decs ++
      publicContractDiags c name args decs pos ++
      testMethodDiags name body ++
      stmtListDiags c body ++
      exprListDiags c decs
  | .assign targets value _ =>
    variableAssignDiags targets ++ exprListDiags c targets ++ exprDiags c value
  | .annAssign target ann value _ =>
    annAssignDiags target ++ exprDiags c target ++ exprDiags c ann ++
      (match value with
       | some v => exprDiags c v
       | none => [])
  | .augAssign target value _ => exprDiags c target ++ exprDiags c value
  | .exprStmt value _ => exprDiags c value
  | .passStmt _ => []
  | .ret value _ =>
    match value with
    | some v => exprDiags c v
    | none => []

/-- The diagnostics `visitExpr` appends for one expression. -/
def exprDiags (c : Option ClassCtx) : Expr → List Diag
  | .name _ _ => []
  | .attr v _ _ => exprDiags c v
  | .call f args kws pos =>
    isinstanceDiags f pos ++ ormDiags f pos ++ exprDiags c f ++
      exprListDiags c args ++ kwListDiags c kws
  | .constant v pos => noneUsageDiags v pos
  | .listLit elts _ => exprListDiags c elts
  | .dictLit keys vals _ => exprListDiags c keys ++ exprListDiags c vals
  | .setLit elts _ => exprListDiags c elts
  | .tupleLit elts _ => exprListDiags c elts
  | .starred v _ => exprDiags c v

/-- The diagnostics appended for a statement list, in visitation order. -/
def stmtListDiags (c : Option ClassCtx) : List Stmt → List Diag
  | [] => []
  | st :: rest => stmtDiags c st ++ stmtListDiags c rest

/-- The diagnostics appended for an expression list, in visitation order. -/
def exprListDiags (c : Option ClassCtx) : List Expr → List Diag
  | [] => []
  | e :: rest => exprDiags c e ++ exprListDiags c rest

/-- The diagnostics appended for keyword-argument values, in order. -/
def kwListDiags (c : Option ClassCtx) : List Kw → List Diag
  | [] => []
  | .mk _ v :: rest => exprDiags c v ++ kwListDiags c rest
end

/-- One `ElegantObjectsViolation` checker instance: the parsed tree (a module
body) together with the instance's accumulated `self.errors` list. -/
structure Checker where
  tree : List Stmt
  errors : List Diag

/-- `ElegantObjectsViolation.__init__`: a fresh instance with an empty error
list. -/
def Checker.new (tree : List Stmt) : Checker := ⟨tree, []⟩

/-- `ElegantObjectsViolation.run` (__init__.py, lines 229-233): visit the
stored tree (appending into the instance's error list, which is never
cleared) and yield the resulting error list.  Returns the yielded sequence
together with the updated instance. -/
def Checker.run (ck : Checker) : List Diag × Checker :=
  let s := visitStmtList ⟨ck.errors, none⟩ ck.tree
  (s.errors, { ck with errors := s.errors })

/-- Analyze a module with a fresh checker (the engine facade
`analyze(tree)`). -/
def analyze (tree : List Stmt) : List Diag := ((Checker.new tree).run).1


/-! The mutation tracker `AttributeMutationVisitor`
(flake8_elegant_objects/no_mutable_objects.py, lines 92-218).  It is an
`ast.NodeVisitor`: node kinds with a dedicated `visit_X` method (`ClassDef`,
`FunctionDef`, `Assign`, `AnnAssign`, `AugAssign`, `Call`) get that method;
every other node kind gets `generic_visit`, which visits the children.  The
dedicated assignment/call methods do NOT call `generic_visit`, so they do not
recurse into their sub-expressions. -/

/-- The `MUTATING_METHODS` set (no_mutable_objects.py, lines 80-89). -/
def MUTATING_METHODS : List String :=
  ["append", "extend", "insert", "remove", "pop", "clear", "sort", "reverse",
   "update", "popitem", "setdefault", "add", "discard",
   "__setitem__", "__delitem__", "__iadd__", "__imul__"]

/-- The mutable state of one `AttributeMutationVisitor`.  `class_attributes`
is a Python set of field names; it is embedded as a list queried only through
membership. -/
structure MVState where
  violations : List Diag
  currentClass : Option String
  inInit : Bool
  classAttributes : List String
  selfArgName : String

/-- The visitor's initial state (its `__init__`). -/
def MVState.init : MVState := ⟨[], none, false, [], "self"⟩

/-- Append freshly produced violations. -/
def addViolations (s : MVState) (ds : List Diag) : MVState :=
  { s with violations := s.violations ++ ds }

/-- `_attribute_chain`: resolve a call's callee into the receiver name and the
attribute path (the source returns a triple whose third component is always
`None`; it is dropped here).  For `self.data.append` the result is
`(self, [data, append])` — note the invoked method name is the last path
element. -/
def attributeChain (selfName : String) : Expr → Option (String × List String)
  | .call f _ _ _ => attributeChain selfName f
  | .attr v a _ =>
    match attributeChain selfName v with
    | none => none
    | some (base, path) =>
      if base == selfName then some (base, path ++ [a]) else none
  | .name id _ => if id == selfName then some (id, []) else none
  | _ => none

mutual
/-- `_collect_attribute`: record `receiver.field` targets (destructuring
tuple/list/starred targets recursively) into the established-field set. -/
def collectAttr (selfName : String) (acc : List String) : Expr → List String
  | .attr (.name vid _) a _ => if vid == selfName then acc ++ [a] else acc
  | .tupleLit elts _ => collectAttrList selfName acc elts
  | .listLit elts _ => collectAttrList selfName acc elts
  | .starred v _ => collectAttr selfName acc v
  | _ => acc

/-- `_collect_attribute` over the elements of a tuple/list target. -/
def collectAttrList (selfName : String) (acc : List String) :
    List Expr → List String
  | [] => acc
  | e :: rest => collectAttrList selfName (collectAttr selfName acc e) rest
end

mutual
/-- `_check_mutation`: flag `receiver.field` targets whose field is in the
established set (destructuring tuple/list/starred targets recursively).  The
diagnostic is positioned at the attribute node. -/
def checkMutation (selfName : String) (attrs : List String) : Expr → List Diag
  | .attr (.name vid _) a pos =>
    if vid == selfName && attrs.contains a then
      [⟨pos.line, pos.col,
        "EO008: Attribute \x27" ++ a ++ "\x27 mutated outside __init__"⟩]
    else []
  | .tupleLit elts _ => checkMutationList selfName attrs elts
  | .listLit elts _ => checkMutationList selfName attrs elts
  | .starred v _ => checkMutation selfName attrs v
  | _ => []

/-- `_check_mutation` over the elements of a tuple/list target. -/
def checkMutationList (selfName : String) (attrs : List String) :
    List Expr → List Diag
  | [] => []
  | e :: rest =>
    checkMutation selfName attrs e ++ checkMutationList selfName attrs rest
end

/-- The message of `visit_Call`'s mutating-operation diagnostic:
`f"EO008: Mutating method '{m}' called on attribute '{full_path}'"` where
`full_path` joins the whole resolved path with dots. -/
def mutatingCallMsg (m fullPath : String) : String :=
  "EO008: Mutating method \x27" ++ m ++ "\x27 called on attribute \x27" ++
    fullPath ++ "\x27"

/-- `visit_Call` (no_mutable_objects.py, lines 149-169), given the current
visitor state and the call's callee and position. -/
def mvCallDiags (s : MVState) (f : Expr) (pos : Pos) : List Diag :=
  match attributeChain s.selfArgName f with
  | none => []
  | some (base, path) =>
    match path with
    | [] => []
    | p0 :: _ =>
      match f with
      | .attr _ funcAttr _ =>
        if base == s.selfArgName && s.classAttributes.contains p0 &&
            MUTATING_METHODS.contains funcAttr then
          [⟨pos.line, pos.col,
            mutatingCallMsg funcAttr (String.intercalate "." path)⟩]
        else []
      | _ => []

mutual
/-- `AttributeMutationVisitor` dispatch on one statement.  `visit_ClassDef`
(lines 100-104) resets the established-field set on entry and sets the current
class to `None` — not the previous value — on exit. -/
def mvVisitStmt (s : MVState) : Stmt → MVState
  | .classDef name bases body decs _ =>
    let s1 := { s with currentClass := some name, classAttributes := [] }
    let s2 := mvVisitExprList s1 bases
    let s3 := mvVisitStmtList s2 body
    let s4 := mvVisitExprList s3 decs
    { s4 with currentClass := none }
  | .functionDef name args body decs _ =>
    match s.currentClass with
    | none => s
    | some _ =>
      let decNames := decs.filterMap (fun d =>
        match d with
        | .name id _ => some id
        | _ => none)
      if decNames.contains "classmethod" || decNames.contains "staticmethod" then s
      else
        let prevInInit := s.inInit
        let prevSelf := s.selfArgName
        let s1 := { s with
          inInit := name == "__init__",
          selfArgName :=
            match args with
            | a :: _ => a
            | [] => "self" }
        let s2 := mvVisitStmtList s1 body
        let s3 := mvVisitExprList s2 decs
        { s3 with inInit := prevInInit, selfArgName := prevSelf }
  | .assign targets _ _ =>
    if s.inInit then
      { s with classAttributes := collectAttrList s.selfArgName s.classAttributes targets }
    else if s.currentClass.isSome then
      addViolations s (checkMutationList s.selfArgName s.classAttributes targets)
    else s
  | .annAssign target _ _ _ =>
    if s.inInit then
      { s with classAttributes := collectAttr s.selfArgName s.classAttributes target }
    else if s.currentClass.isSome then
      addViolations s (checkMutation s.selfArgName s.classAttributes target)
    else s
  | .augAssign target _ _ =>
    if s.inInit then
      { s with classAttributes := collectAttr s.selfArgName s.classAttributes target }
    else if s.currentClass.isSome then
      addViolations s (checkMutation s.selfArgName s.classAttributes target)
    else s
  | .exprStmt value _ => mvVisitExpr s value
  | .passStmt _ => s
  | .ret value _ =>
    match value with
    | some v => mvVisitExpr s v
    | none => s

/-- `AttributeMutationVisitor` dispatch on one expression.  `visit_Call` does
not recurse into the call's sub-expressions; every other expression kind is
handled by `generic_visit`. -/
def mvVisitExpr (s : MVState) : Expr → MVState
  | .call f _ _ pos =>
    if s.inInit || s.currentClass.isNone then s
    else addViolations s (mvCallDiags s f pos)
  | .name _ _ => s
  | .attr v _ _ => mvVisitExpr s v
  | .constant _ _ => s
  | .listLit elts _ => mvVisitExprList s elts
  | .dictLit keys vals _ =>
    let s1 := mvVisitExprList s keys
    mvVisitExprList s1 vals
  | .setLit elts _ => mvVisitExprList s elts
  | .tupleLit elts _ => mvVisitExprList s elts
  | .starred v _ => mvVisitExpr s v

/-- Visit a statement list in order. -/
def mvVisitStmtList (s : MVState) : List Stmt → MVState
  | [] => s
  | st :: rest => mvVisitStmtList (mvVisitStmt s st) rest

/-- Visit an expression list in order. -/
def mvVisitExprList (s : MVState) : List Expr → MVState
  | [] => s
  | e :: rest => mvVisitExprList (mvVisitExpr s e) rest
end

/-- `NoMutableObjects.check`'s mutation pass: run a fresh
`AttributeMutationVisitor` over one class declaration and collect its
violations. -/
def mvRun (cls : Stmt) : List Diag := (mvVisitStmt MVState.init cls).violations

/-! Example programs used to settle the claims: small parsed trees written
directly as AST values, with explicit source positions. -/

/-- `def __init__(r, v): r.items = []` — a designated initializer whose body
assigns a list literal to `receiver.items`. -/
def c1InitDef (r v : String) : Stmt :=
  .functionDef "__init__" [r, v]
    [.assign [.attr (.name r ⟨3, 8⟩) "items" ⟨3, 8⟩] (.listLit [] ⟨3, 23⟩) ⟨3, 8⟩]
    [] ⟨2, 4⟩

/-- `def m(r, x): r.items.append(x)` — an instance method invoking a mutating
operation on the `items` field through the receiver. -/
def c1AppendDef (m r x : String) : Stmt :=
  .functionDef m [r, x]
    [.exprStmt
      (.call (.attr (.attr (.name r ⟨6, 8⟩) "items" ⟨6, 8⟩) "append" ⟨6, 8⟩)
        [.name x ⟨6, 27⟩] [] ⟨6, 8⟩) ⟨6, 8⟩]
    [] ⟨5, 4⟩

/-- `def m(r): r.items = []` — an instance method reassigning the `items`
field through the receiver. -/
def c1AssignDef (m r : String) : Stmt :=
  .functionDef m [r]
    [.assign [.attr (.name r ⟨6, 8⟩) "items" ⟨6, 8⟩] (.listLit [] ⟨6, 21⟩) ⟨6, 8⟩]
    [] ⟨5, 4⟩

/-- The concrete class of the mutation-tracker scenario: an initializer
establishing `self.items` followed by a method calling
`self.items.append(x)`. -/
def c1Example : Stmt :=
  .classDef "Box" [] [c1InitDef "self" "items0", c1AppendDef "grow" "self" "x"]
    [] ⟨1, 0⟩

/-- An empty nested class declaration. -/
def c2Inner : Stmt := .classDef "Inner" [] [.passStmt ⟨5, 8⟩] [] ⟨4, 4⟩

/-- Outer class: initializer establishing `self.items`, then a nested class,
then a method reassigning `self.items`. -/
def c2Outer : Stmt :=
  .classDef "Outer" []
    [c1InitDef "self" "v", c2Inner, c1AssignDef "touch" "self"] [] ⟨1, 0⟩

/-- The same outer class without the nested declaration. -/
def c2OuterNoInner : Stmt :=
  .classDef "Outer" [] [c1InitDef "self" "v", c1AssignDef "touch" "self"] [] ⟨1, 0⟩

/-- `class Wrong(list, dict): pass` — one declaration listing two bases that
are both outside the allow-list. -/
def c3TwoBases : Stmt :=
  .classDef "Wrong" [.name "list" ⟨1, 12⟩, .name "dict" ⟨1, 18⟩]
    [.passStmt ⟨2, 4⟩] [] ⟨1, 0⟩

/-- Two separate declarations, each with one disallowed base
(`class UserManager(list)` and `class DataProcessor(dict)`). -/
def c3TwoClasses : List Stmt :=
  [.classDef "UserManager" [.name "list" ⟨1, 18⟩] [.passStmt ⟨2, 4⟩] [] ⟨1, 0⟩,
   .classDef "DataProcessor" [.name "dict" ⟨4, 20⟩] [.passStmt ⟨5, 4⟩] [] ⟨4, 0⟩]

/-- A constructor body with two statements violating the permitted shape. -/
def c4TwoViolations : List Stmt :=
  [.exprStmt (.name "a" ⟨2, 8⟩) ⟨2, 8⟩, .exprStmt (.name "b" ⟨3, 8⟩) ⟨3, 8⟩]

/-- `class _Manager: pass` — an underscore-prefixed class name ending in a
banned suffix. -/
def c5Module : List Stmt :=
  [.classDef "_Manager" [] [.passStmt ⟨2, 4⟩] [] ⟨1, 0⟩]

/-- `def get_name(self): pass` at module level. -/
def c10GetName : List Stmt :=
  [.functionDef "get_name" ["self"] [.passStmt ⟨2, 4⟩] [] ⟨1, 0⟩]

/-- `def process_data(self): pass` at module level. -/
def c10Process : List Stmt :=
  [.functionDef "process_data" ["self"] [.passStmt ⟨2, 4⟩] [] ⟨1, 0⟩]

mutual
/-- Normalization of the state-passing engine on one statement: the traversal
appends exactly `stmtDiags` of the node and the active context, and restores
the context. -/
theorem visitStmt_norm : ∀ (es : List Diag) (c : Option ClassCtx) (n : Stmt),
    visitStmt ⟨es, c⟩ n = ⟨es ++ stmtDiags c n, c⟩
  | es, c, .classDef name bases body decs pos => by
    simp only [visitStmt, stmtDiags, addErrors]
    rw [visitExprList_norm, visitStmtList_norm, visitExprList_norm]
    simp [List.append_assoc]
  | es, c, .functionDef name args body decs pos => by
    simp only [visitStmt, stmtDiags, addErrors]
    rw [visitStmtList_norm, visitExprList_norm]
    simp [List.append_assoc]
  | es, c, .assign targets value pos => by
    simp only [visitStmt, stmtDiags, addErrors]
    rw [visitExprList_norm, visitExpr_norm]
    simp [List.append_assoc]
  | es, c, .annAssign target ann value pos => by
    cases value with
    | none =>
      simp only [visitStmt, stmtDiags, addErrors]
      rw [visitExpr_norm, visitExpr_norm]
      simp [List.append_assoc]
    | some v =>
      simp only [visitStmt, stmtDiags, addErrors]
      rw [visitExpr_norm, visitExpr_norm, visitExpr_norm]
      simp [List.append_assoc]
  | es, c, .augAssign target value pos => by
    simp only [visitStmt, stmtDiags]
    rw [visitExpr_norm, visitExpr_norm]
    simp [List.append_assoc]
  | es, c, .exprStmt value pos => by
    simp only [visitStmt, stmtDiags]
    rw [visitExpr_norm]
  | es, c, .passStmt pos => by
    simp [visitStmt, stmtDiags]
  | es, c, .ret value pos => by
    cases value with
    | none => simp [visitStmt, stmtDiags]
    | some v =>
      simp only [visitStmt, stmtDiags]
      rw [visitExpr_norm]

/-- Normalization of the state-passing engine on one expression. -/
theorem visitExpr_norm : ∀ (es : List Diag) (c : Option ClassCtx) (e : Expr),
    visitExpr ⟨es, c⟩ e = ⟨es ++ exprDiags c e, c⟩
  | es, c, .name id pos => by simp [visitExpr, exprDiags]
  | es, c, .attr v a pos => by
    simp only [visitExpr, exprDiags]
    rw [visitExpr_norm]
  | es, c, .call f args kws pos => by
    simp only [visitExpr, exprDiags, addErrors]
    rw [visitExpr_norm, visitExprList_norm, visitKwList_norm]
    simp [List.append_assoc]
  | es, c, .constant v pos => by simp [visitExpr, exprDiags, addErrors]
  | es, c, .listLit elts pos => by
    simp only [visitExpr, exprDiags]
    rw [visitExprList_norm]
  | es, c, .dictLit keys vals pos => by
    simp only [visitExpr, exprDiags]
    rw [visitExprList_norm, visitExprList_norm]
    simp [List.append_assoc]
  | es, c, .setLit elts pos => by
    simp only [visitExpr, exprDiags]
    rw [visitExprList_norm]
  | es, c, .tupleLit elts pos => by
    simp only [visitExpr, exprDiags]
    rw [visitExprList_norm]
  | es, c, .starred v pos => by
    simp only [visitExpr, exprDiags]
    rw [visitExpr_norm]

/-- Normalization on a statement list. -/
theorem visitStmtList_norm : ∀ (es : List Diag) (c : Option ClassCtx)
    (l : List Stmt), visitStmtList ⟨es, c⟩ l = ⟨es ++ stmtListDiags c l, c⟩
  | es, c, [] => by simp [visitStmtList, stmtListDiags]
  | es, c, st :: rest => by
    simp only [visitStmtList, stmtListDiags]
    rw [visitStmt_norm, visitStmtList_norm]
    simp [List.append_assoc]

/-- Normalization on an expression list. -/
theorem visitExprList_norm : ∀ (es : List Diag) (c : Option ClassCtx)
    (l : List Expr), visitExprList ⟨es, c⟩ l = ⟨es ++ exprListDiags c l, c⟩
  | es, c, [] => by simp [visitExprList, exprListDiags]
  | es, c, e :: rest => by
    simp only [visitExprList, exprListDiags]
    rw [visitExpr_norm, visitExprList_norm]
    simp [List.append_assoc]

/-- Normalization on a keyword list. -/
theorem visitKwList_norm : ∀ (es : List Diag) (c : Option ClassCtx)
    (l : List Kw), visitKwList ⟨es, c⟩ l = ⟨es ++ kwListDiags c l, c⟩
  | es, c, [] => by simp [visitKwList, kwListDiags]
  | es, c, .mk a v :: rest => by
    simp only [visitKwList, kwListDiags]
    rw [visitExpr_norm, visitKwList_norm]
    simp [List.append_assoc]
end

/-- The traversal restores the enclosing-class context after every
statement. -/
theorem visitStmt_currentClass (s : VState) (n : Stmt) :
    (visitStmt s n).currentClass = s.currentClass := by
  cases s with
  | mk es c => rw [visitStmt_norm]

/-- The engine facade is the pure diagnostic function of the tree evaluated
with no enclosing class. -/
theorem analyze_eq (t : List Stmt) : analyze t = stmtListDiags none t := by
  simp only [analyze, Checker.new, Checker.run]
  rw [visitStmtList_norm]
  simp

/-- One constructor-body statement produces zero or one `EO006`
diagnostics. -/
theorem initStmtDiags_cases (st : Stmt) :
    initStmtDiags st = [] ∨ ∃ d, initStmtDiags st = [d] := by
  unfold initStmtDiags
  repeat' split
  all_goals simp

/-- The core.py constructor loop yields exactly the diagnostics of the first
violating statement (and nothing when no statement violates). -/
theorem coreConstructorBodyDiags_first : ∀ body : List Stmt,
    coreConstructorBodyDiags body =
      (body.find? (fun st => !(initStmtDiags st).isEmpty)).elim [] initStmtDiags
  | [] => by simp [coreConstructorBodyDiags]
  | st :: rest => by
    rcases initStmtDiags_cases st with h | ⟨d, h⟩
    · simp [coreConstructorBodyDiags, h, List.find?_cons,
        coreConstructorBodyDiags_first rest]
    · simp [coreConstructorBodyDiags, h, List.find?_cons]

/-- The __init__.py constructor loop yields one diagnostic per violating
statement. -/
theorem constructorBodyDiags_length : ∀ body : List Stmt,
    (constructorBodyDiags body).length =
      body.countP (fun st => !(initStmtDiags st).isEmpty)
  | [] => by simp [constructorBodyDiags]
  | st :: rest => by
    rcases initStmtDiags_cases st with h | ⟨d, h⟩ <;>
      simp [constructorBodyDiags, h, List.countP_cons,
        constructorBodyDiags_length rest]

/-- The advanced.py inheritance rule emits at most one diagnostic per
declaration. -/
theorem advImplInheritanceDiags_length (name : String) (pos : Pos) :
    ∀ bases : List Expr, (advImplInheritanceDiags name pos bases).length ≤ 1
  | [] => by simp [advImplInheritanceDiags]
  | b :: bs => by
    by_cases h : isAbstractBase b
    · simpa [advImplInheritanceDiags, h] using
        advImplInheritanceDiags_length name pos bs
    · simp [advImplInheritanceDiags, h]

/-- The advanced.py inheritance rule emits exactly one diagnostic iff some
base is outside the allow-list. -/
theorem advImplInheritanceDiags_length_one (name : String) (pos : Pos) :
    ∀ bases : List Expr,
      ((advImplInheritanceDiags name pos bases).length = 1 ↔
        bases.any (fun b => !isAbstractBase b) = true)
  | [] => by simp [advImplInheritanceDiags]
  | b :: bs => by
    by_cases h : isAbstractBase b
    · simpa [advImplInheritanceDiags, h] using
        advImplInheritanceDiags_length_one name pos bs
    · simp [advImplInheritanceDiags, h]

/-- The __init__.py inheritance rule emits one diagnostic per base outside
the allow-list. -/
theorem implInheritanceDiags_length (name : String) (pos : Pos) :
    ∀ bases : List Expr,
      (implInheritanceDiags name pos bases).length =
        (bases.filter (fun b => !isAbstractBase b)).length
  | [] => by simp [implInheritanceDiags]
  | b :: bs => by
    by_cases h : isAbstractBase b <;>
      simpa [implInheritanceDiags, h, List.filter_cons] using
        implInheritanceDiags_length name pos bs

/-- C1 (counterexample): on a class whose initializer assigns a list literal
to `self.items` and whose second method calls `self.items.append(x)`, the
mutation tracker emits exactly one mutating-operation diagnostic, but the
dotted path it names is `items.append` — the resolved attribute chain includes
the invoked method name — not `items` as the claim states. -/
theorem claim_C1_counterexample :
    (mvRun c1Example).map Diag.msg = [mutatingCallMsg "append" "items.append"] ∧
    mutatingCallMsg "append" "items.append" ≠ mutatingCallMsg "append" "items" := by
  constructor
  · simp [mvRun, c1Example, c1InitDef, c1AppendDef, MVState.init, mvVisitStmt,
      mvVisitStmtList, mvVisitExpr, mvVisitExprList, collectAttrList,
      collectAttr, checkMutationList, checkMutation, mvCallDiags,
      attributeChain, addViolations, MUTATING_METHODS]
    rfl
  · decide

/-- C1 (amended): for every class whose initializer (`__init__` with receiver
first parameter) assigns a list literal to `receiver.items` and whose second
instance method calls `receiver.items.append(x)`, the mutation tracker emits
exactly one mutating-operation diagnostic naming the dotted path
`items.append`; if the second method instead reassigns `receiver.items = []`,
it emits the distinct diagnostic naming `items` as mutated outside
`__init__`. -/
theorem claim_C1 (c m r rm v x : String) (h : m ≠ "__init__") :
    mvRun (.classDef c [] [c1InitDef r v, c1AppendDef m rm x] [] ⟨1, 0⟩) =
      [⟨6, 8, mutatingCallMsg "append" "items.append"⟩] ∧
    mvRun (.classDef c [] [c1InitDef r v, c1AssignDef m rm] [] ⟨1, 0⟩) =
      [⟨6, 8, "EO008: Attribute \x27items\x27 mutated outside __init__"⟩] := by
  have hb : (m == "__init__") = false := by simp [h]
  constructor
  · simp [mvRun, c1InitDef, c1AppendDef, MVState.init, mvVisitStmt,
      mvVisitStmtList, mvVisitExpr, mvVisitExprList, collectAttrList,
      collectAttr, checkMutationList, checkMutation, mvCallDiags,
      attributeChain, addViolations, MUTATING_METHODS, hb]
    rfl
  · simp [mvRun, c1InitDef, c1AssignDef, MVState.init, mvVisitStmt,
      mvVisitStmtList, mvVisitExpr, mvVisitExprList, collectAttrList,
      collectAttr, checkMutationList, checkMutation, mvCallDiags,
      attributeChain, addViolations, MUTATING_METHODS, hb]

/-- C1 (witness): the amended statement evaluated at a concrete class. -/
theorem claim_C1_witness :
    ("grow" : String) ≠ "__init__" ∧
    (mvRun (.classDef "Box" [] [c1InitDef "self" "v", c1AppendDef "grow" "self" "x"]
        [] ⟨1, 0⟩) =
      [⟨6, 8, mutatingCallMsg "append" "items.append"⟩] ∧
     mvRun (.classDef "Box" [] [c1InitDef "self" "v", c1AssignDef "grow" "self"]
        [] ⟨1, 0⟩) =
      [⟨6, 8, "EO008: Attribute \x27items\x27 mutated outside __init__"⟩]) :=
  ⟨by decide, claim_C1 "Box" "grow" "self" "self" "v" "x" (by decide)⟩

/-- C2 (counterexample): the mutation tracker does not restore the outer
state on exiting a nested type declaration: visiting the nested class from a
state whose current type is `Outer` with established field `items` leaves the
current type `none` and the established-field set empty, and consequently an
outer method that reassigns `self.items` after the nested class yields no
diagnostic, although the identical class without the nested declaration
yields one. -/
theorem claim_C2_counterexample :
    (mvVisitStmt ⟨[], some "Outer", false, ["items"], "self"⟩ c2Inner).currentClass
      = none ∧
    (mvVisitStmt ⟨[], some "Outer", false, ["items"], "self"⟩ c2Inner).classAttributes
      = [] ∧
    mvRun c2Outer = [] ∧
    mvRun c2OuterNoInner =
      [⟨6, 8, "EO008: Attribute \x27items\x27 mutated outside __init__"⟩] := by
  refine ⟨?_, ?_, ?_, ?_⟩
  · simp [c2Inner, mvVisitStmt, mvVisitStmtList, mvVisitExpr, mvVisitExprList]
  · simp [c2Inner, mvVisitStmt, mvVisitStmtList, mvVisitExpr, mvVisitExprList]
  · simp [mvRun, c2Outer, c2Inner, c1InitDef, c1AssignDef, MVState.init,
      mvVisitStmt, mvVisitStmtList, mvVisitExpr, mvVisitExprList,
      collectAttrList, collectAttr, checkMutationList, checkMutation,
      mvCallDiags, attributeChain, addViolations]
  · simp [mvRun, c2OuterNoInner, c1InitDef, c1AssignDef, MVState.init,
      mvVisitStmt, mvVisitStmtList, mvVisitExpr, mvVisitExprList,
      collectAttrList, collectAttr, checkMutationList, checkMutation,
      mvCallDiags, attributeChain, addViolations]

/-- C2 (amended): the main engine's enclosing-class context obeys strict
stack discipline — visiting any statement restores the previous context on
exit.  The mutation tracker does not: entering a nested type declaration
resets the established-field set and exiting sets the current type to `none`
(not the outer declaration's), so an outer method appearing after a nested
class is not analyzed and produces no diagnostic. -/
theorem claim_C2 :
    (∀ (s : VState) (n : Stmt), (visitStmt s n).currentClass = s.currentClass) ∧
    (∀ (s : MVState) (name : String) (bases : List Expr) (body : List Stmt)
        (decs : List Expr) (pos : Pos),
      (mvVisitStmt s (.classDef name bases body decs pos)).currentClass = none) ∧
    mvRun c2Outer = [] := by
  refine ⟨visitStmt_currentClass, ?_, ?_⟩
  · intro s name bases body decs pos
    simp [mvVisitStmt]
  · simp [mvRun, c2Outer, c2Inner, c1InitDef, c1AssignDef, MVState.init,
      mvVisitStmt, mvVisitStmtList, mvVisitExpr, mvVisitExprList,
      collectAttrList, collectAttr, checkMutationList, checkMutation,
      mvCallDiags, attributeChain, addViolations]

/-- C3 (counterexample): the plugin's inheritance rule emits one `EO014` per
disallowed base, so a declaration listing two disallowed bases (`list` and
`dict`) is flagged twice, not once. -/
theorem claim_C3_counterexample :
    (analyze [c3TwoBases]).map Diag.msg = [fmtEO014 "Wrong", fmtEO014 "Wrong"] ∧
    (analyze [c3TwoBases]).length = 2 := by
  constructor <;>
    · rw [analyze_eq]
      simp [c3TwoBases, stmtListDiags, stmtDiags, classNameDiags,
        mutableClassDiags, mutableBodyDiags, implInheritanceDiags,
        exprListDiags, exprDiags, isAbstractBase]
      rfl

/-- C3 (amended): the advanced.py inheritance rule emits at most one
diagnostic per declaration (exactly one iff some base is outside the
allow-list), while the plugin version emits one diagnostic per disallowed
base; two separate offending declarations each independently produce exactly
one inheritance diagnostic naming themselves. -/
theorem claim_C3 (name : String) (pos : Pos) (bases : List Expr) :
    (advImplInheritanceDiags name pos bases).length ≤ 1 ∧
    ((advImplInheritanceDiags name pos bases).length = 1 ↔
      bases.any (fun b => !isAbstractBase b) = true) ∧
    (implInheritanceDiags name pos bases).length =
      (bases.filter (fun b => !isAbstractBase b)).length ∧
    ((analyze c3TwoClasses).filter (fun d => pyStartsWith d.msg "EO014")).map Diag.msg
      = [fmtEO014 "UserManager", fmtEO014 "DataProcessor"] := by
  refine ⟨advImplInheritanceDiags_length name pos bases,
    advImplInheritanceDiags_length_one name pos bases,
    implInheritanceDiags_length name pos bases, ?_⟩
  rw [analyze_eq]
  simp [c3TwoClasses, stmtListDiags, stmtDiags, classNameDiags,
    mutableClassDiags, mutableBodyDiags, implInheritanceDiags, exprListDiags,
    exprDiags, isAbstractBase]
  rfl

/-- C4 (counterexample): in the plugin, an `__init__` body with two
statements violating the permitted shape emits two `EO006` diagnostics, not
only one for the first violating statement. -/
theorem claim_C4_counterexample :
    (constructorCodeDiags "__init__" ["self"] c4TwoViolations).length = 2 ∧
    analyze [.functionDef "__init__" ["self"] c4TwoViolations [] ⟨1, 0⟩] =
      [⟨2, 8, msgEO006⟩, ⟨3, 8, msgEO006⟩] := by
  constructor
  · rfl
  · rw [analyze_eq]
    simp [c4TwoViolations, stmtListDiags, stmtDiags, functionNameDiags,
      constructorCodeDiags, constructorBodyDiags, initStmtDiags,
      getterSetterDiags, staticMethodDiags, publicContractDiags,
      testMethodDiags, exprListDiags, exprDiags, isMethod, Stmt.posOf]
    rfl

/-- C4 (amended): core.py's `NoConstructorCode` emits only the diagnostics of
the first violating statement — at most one per body — while the plugin
version emits one diagnostic per violating statement; a body consisting only
of `pass` placeholders emits none in either version. -/
theorem claim_C4 (args : List String) (body : List Stmt) :
    coreConstructorCodeDiags "__init__" args body =
      (if isMethod args then
        (body.find? (fun st => !(initStmtDiags st).isEmpty)).elim [] initStmtDiags
       else []) ∧
    (coreConstructorCodeDiags "__init__" args body).length ≤ 1 ∧
    (constructorCodeDiags "__init__" args body).length =
      (if isMethod args then body.countP (fun st => !(initStmtDiags st).isEmpty)
       else 0) ∧
    coreConstructorCodeDiags "__init__" ["self"] [.passStmt ⟨2, 4⟩] = [] ∧
    constructorCodeDiags "__init__" ["self"] [.passStmt ⟨2, 4⟩] = [] := by
  have hcore : coreConstructorCodeDiags "__init__" args body =
      (if isMethod args then
        (body.find? (fun st => !(initStmtDiags st).isEmpty)).elim [] initStmtDiags
       else []) := by
    by_cases hm : isMethod args <;>
      simp [coreConstructorCodeDiags, hm, coreConstructorBodyDiags_first]
  refine ⟨hcore, ?_, ?_, rfl, rfl⟩
  · rw [hcore]
    by_cases hm : isMethod args
    · simp only [hm, if_true]
      cases hfind : body.find? (fun st => !(initStmtDiags st).isEmpty) with
      | none => simp
      | some st =>
        rcases initStmtDiags_cases st with h | ⟨d, h⟩ <;> simp [h]
    · simp [hm]
  · by_cases hm : isMethod args <;>
      simp [constructorCodeDiags, hm, constructorBodyDiags_length]

/-- C5 (counterexample): a type declaration whose name begins with an
underscore is not skipped by the class-naming rule: `class _Manager: pass`
produces exactly one `EO001` diagnostic. -/
theorem claim_C5_counterexample :
    analyze c5Module = [⟨1, 0, fmtEO001 "_Manager"⟩] := by
  rw [analyze_eq]
  simp [c5Module, stmtListDiags, stmtDiags, classNameDiags, mutableClassDiags,
    mutableBodyDiags, implInheritanceDiags, exprListDiags, exprDiags]
  rfl

/-- C5 (amended): function/method names with a leading underscore and
variable names with a leading underscore or in upper case are skipped by the
naming rules, but class names have no such skip: a class named `_Manager`
receives a class-naming diagnostic. -/
theorem claim_C5 (name id : String) (args : List String) (pos : Pos)
    (hn : pyStartsWith name "_" = true)
    (hv : pyStartsWith id "_" = true ∨ pyIsUpper id = true) :
    functionNameDiags name args pos = [] ∧
    variableNameDiags id pos = [] ∧
    classNameDiags "_Manager" ⟨1, 0⟩ = [⟨1, 0, fmtEO001 "_Manager"⟩] := by
  refine ⟨by simp [functionNameDiags, hn], ?_, by rfl⟩
  rcases hv with h | h <;> simp [variableNameDiags, h]

/-- C5 (witness): the amended statement evaluated at concrete names. -/
theorem claim_C5_witness :
    pyStartsWith "_helper" "_" = true ∧
    (pyStartsWith "_cache" "_" = true ∨ pyIsUpper "_cache" = true) ∧
    (functionNameDiags "_helper" ["self"] ⟨1, 0⟩ = [] ∧
     variableNameDiags "_cache" ⟨1, 0⟩ = [] ∧
     classNameDiags "_Manager" ⟨1, 0⟩ = [⟨1, 0, fmtEO001 "_Manager"⟩]) :=
  ⟨by decide, Or.inl (by decide),
    claim_C5 "_helper" "_cache" ["self"] ⟨1, 0⟩ (by decide) (Or.inl (by decide))⟩

/-- C6: the engine is deterministic — the diagnostics a traversal appends are
a pure function of the tree and the active enclosing-class context (the
accumulated error list does not influence them), so two fresh invocations of
`run` on the same tree yield identical diagnostic sequences. -/
theorem claim_C6 (tree : List Stmt) (s : VState) :
    visitStmtList s tree =
      ⟨s.errors ++ stmtListDiags s.currentClass tree, s.currentClass⟩ ∧
    analyze tree = stmtListDiags none tree ∧
    ((Checker.new tree).run).1 = ((Checker.new tree).run).1 := by
  refine ⟨?_, analyze_eq tree, rfl⟩
  cases s with
  | mk es c => exact visitStmtList_norm es c tree

/-- C7: the engine is total by construction (every embedded rule and the
traversal are total functions), and the position guards hold: a missing
position makes `Principles._violation` return no diagnostic, a `None`
constant without position information yields no diagnostic, and visiting such
a constant leaves the engine state unchanged. -/
theorem claim_C7 (s : VState) (msg : String) (v : Const) :
    violationAt none msg = [] ∧
    noneUsageDiags v none = [] ∧
    visitExpr s (.constant .noneC none) = s := by
  refine ⟨rfl, by cases v <;> rfl, ?_⟩
  cases s with
  | mk es c => simp [visitExpr, noneUsageDiags, addErrors]

/-- C8: the mutation tracker is order-sensitive over the class body — a
mutating call or reassignment on a constructor-initialized field in a method
defined lexically before `__init__` produces no diagnostic, while the
identical method defined after `__init__` produces one. -/
theorem claim_C8 (c m r rm v x : String) (h : m ≠ "__init__") :
    mvRun (.classDef c [] [c1AppendDef m rm x, c1InitDef r v] [] ⟨1, 0⟩) = [] ∧
    mvRun (.classDef c [] [c1AssignDef m rm, c1InitDef r v] [] ⟨1, 0⟩) = [] ∧
    mvRun (.classDef c [] [c1InitDef r v, c1AppendDef m rm x] [] ⟨1, 0⟩) ≠ [] ∧
    mvRun (.classDef c [] [c1InitDef r v, c1AssignDef m rm] [] ⟨1, 0⟩) ≠ [] := by
  have hb : (m == "__init__") = false := by simp [h]
  refine ⟨?_, ?_, ?_, ?_⟩ <;>
    simp [mvRun, c1InitDef, c1AppendDef, c1AssignDef, MVState.init,
      mvVisitStmt, mvVisitStmtList, mvVisitExpr, mvVisitExprList,
      collectAttrList, collectAttr, checkMutationList, checkMutation,
      mvCallDiags, attributeChain, addViolations, MUTATING_METHODS, hb]

/-- C8 (witness): the order-sensitivity statement evaluated at a concrete
class. -/
theorem claim_C8_witness :
    ("mutator" : String) ≠ "__init__" ∧
    (mvRun (.classDef "Pack" []
        [c1AppendDef "mutator" "self" "x", c1InitDef "self" "v"] [] ⟨1, 0⟩) = [] ∧
     mvRun (.classDef "Pack" []
        [c1AssignDef "mutator" "self", c1InitDef "self" "v"] [] ⟨1, 0⟩) = [] ∧
     mvRun (.classDef "Pack" []
        [c1InitDef "self" "v", c1AppendDef "mutator" "self" "x"] [] ⟨1, 0⟩) ≠ [] ∧
     mvRun (.classDef "Pack" []
        [c1InitDef "self" "v", c1AssignDef "mutator" "self"] [] ⟨1, 0⟩) ≠ []) :=
  ⟨by decide, claim_C8 "Pack" "mutator" "self" "self" "v" "x" (by decide)⟩

/-- C9: `run()` is not idempotent at the instance level — the error list is
never cleared, so a second `run` on the same instance re-traverses the tree
and yields every diagnostic of the tree exactly twice. -/
theorem claim_C9 (tree : List Stmt) :
    (((Checker.new tree).run).2.run).1 =
      ((Checker.new tree).run).1 ++ ((Checker.new tree).run).1 ∧
    ∀ d : Diag,
      (((Checker.new tree).run).2.run).1.count d =
        2 * (((Checker.new tree).run).1.count d) := by
  have h : (((Checker.new tree).run).2.run).1 =
      ((Checker.new tree).run).1 ++ ((Checker.new tree).run).1 := by
    simp only [Checker.new, Checker.run]
    rw [visitStmtList_norm]
    simp only []
    rw [visitStmtList_norm]
    simp
  refine ⟨h, fun d => ?_⟩
  rw [h, List.count_append]
  omega

/-- C10: receiver-boundness is decided purely by the first parameter's name
being `self` or `cls`, independently of any enclosing class: a module-level
`def get_name(self)` receives the getter/setter diagnostic (`EO007`), and a
verb-named module-level function with such a first parameter receives the
method naming code `EO002`, not the standalone-function code `EO004`. -/
theorem claim_C10 :
    (∀ args : List String,
      isMethod args = true ↔
        ∃ a rest, args = a :: rest ∧ (a = "self" ∨ a = "cls")) ∧
    analyze c10GetName =
      [⟨1, 0, fmtEO002 "get_name"⟩, ⟨1, 0, fmtEO007 "get_name"⟩] ∧
    analyze c10Process = [⟨1, 0, fmtEO002 "process_data"⟩] := by
  refine ⟨fun args => ?_, ?_, ?_⟩
  · cases args with
    | nil => simp [isMethod]
    | cons a rest => simp [isMethod]
  · rw [analyze_eq]
    simp [c10GetName, stmtListDiags, stmtDiags, functionNameDiags,
      constructorCodeDiags, getterSetterDiags, staticMethodDiags,
      publicContractDiags, testMethodDiags, exprListDiags, exprDiags, isMethod]
    rfl
  · rw [analyze_eq]
    simp [c10Process, stmtListDiags, stmtDiags, functionNameDiags,
      constructorCodeDiags, getterSetterDiags, staticMethodDiags,
      publicContractDiags, testMethodDiags, exprListDiags, exprDiags, isMethod]
    rfl

end EO
